import Mathlib

/-!
Shallow embedding of the forum client (session store, API gateway request
construction, feed synchronizer, comment synchronizer) for checking the
natural-language specification against the code.

Conventions of the embedding:
* `localStorage` is modelled as two `Option String` slots (`storedToken`,
  `storedUsername`); `localStorage.getItem` returning `null` is `none`.
* JavaScript truthiness of a string read from storage (`!!s`, `s || d`):
  `null` and the empty string are falsy; `jsTruthy` captures this.
* Network calls are pure parameters: each handler takes the response the
  server would give and returns, besides the new state, the list of
  requests it issued (so "no network call" is a provable statement).
* `created_at` dates are modelled by their numeric timestamp (`Int`),
  matching the `new Date(x) - new Date(y)` comparisons in the code.
-/

namespace Forum

/-- JS truthiness of a nullable string: `null` and `""` are falsy. -/
def jsTruthy : Option String → Bool
  | none => false
  | some s => !(s == "")

/-! ## Session store (src/services/auth.js)

Module state of `auth.js`: the two in-memory variables `guestMode` and
`currentUsername`, together with the two localStorage slots. -/

structure AuthState where
  guestMode : Bool
  currentUsername : Option String
  storedToken : Option String
  storedUsername : Option String
  deriving Repr, DecidableEq

/-- Fresh module state: `let guestMode = false; let currentUsername = null;`
with empty storage. -/
def initialAuthState : AuthState :=
  { guestMode := false, currentUsername := none
    storedToken := none, storedUsername := none }

inductive LoginResult where
  | success (username token : String)
  | failure
  deriving Repr, DecidableEq

/-- `authService.login`: the API call either yields a token (`some token`)
or throws (`none`).  On success the token and username are persisted and the
in-memory variables set; on failure (the `catch` branch) nothing was written
and an error result is returned. -/
def login (s : AuthState) (username : String) (apiToken : Option String) :
    AuthState × LoginResult :=
  match apiToken with
  | some token =>
    ({ guestMode := false, currentUsername := some username
       storedToken := some token, storedUsername := some username },
     .success username token)
  | none => (s, .failure)

inductive RegisterResult where
  | success
  | failure
  deriving Repr, DecidableEq

/-- `authService.register`: forwards the API outcome; touches neither the
in-memory variables nor localStorage. -/
def register (s : AuthState) (apiOk : Bool) : AuthState × RegisterResult :=
  (s, if apiOk then .success else .failure)

/-- `authService.loginAsGuest`: sets guest mode, username "Guest", and
removes both persisted slots. -/
def loginAsGuest (s : AuthState) : AuthState :=
  let _ := s
  { guestMode := true, currentUsername := some "Guest"
    storedToken := none, storedUsername := none }

/-- `authService.logout`: clears storage and the in-memory variables. -/
def logout (s : AuthState) : AuthState :=
  let _ := s
  { guestMode := false, currentUsername := none
    storedToken := none, storedUsername := none }

/-- `authService.isAuthenticated`:
`!!localStorage.getItem('authToken') || guestMode`. -/
def isAuthenticated (s : AuthState) : Bool :=
  jsTruthy s.storedToken || s.guestMode

/-- `authService.isGuest`: `guestMode && !localStorage.getItem('authToken')`. -/
def isGuest (s : AuthState) : Bool :=
  s.guestMode && !jsTruthy s.storedToken

/-- `authService.getUsername`:
`currentUsername || localStorage.getItem('username') || 'Guest'`. -/
def getUsername (s : AuthState) : String :=
  if jsTruthy s.currentUsername then s.currentUsername.getD ""
  else if jsTruthy s.storedUsername then s.storedUsername.getD ""
  else "Guest"

/-- `authService.getToken`. -/
def getToken (s : AuthState) : Option String :=
  s.storedToken

/-- `authService.initAuth`: run at app load; if both slots are (truthily)
present, restore the in-memory username and clear guest mode. -/
def initAuth (s : AuthState) : AuthState :=
  if jsTruthy s.storedToken && jsTruthy s.storedUsername then
    { s with currentUsername := s.storedUsername, guestMode := false }
  else s

/-- Reloading the browser context: the module-level variables of `auth.js`
are re-initialised, localStorage persists. -/
def reload (s : AuthState) : AuthState :=
  { guestMode := false, currentUsername := none
    storedToken := s.storedToken, storedUsername := s.storedUsername }

/-- The session kinds of the spec's data model, derived from the code's
predicates. -/
inductive SessionKind where
  | Anonymous
  | Guest
  | Authenticated
  deriving Repr, DecidableEq

/-- Classify a state: `Guest` when `isGuest`, otherwise `Authenticated`
when `isAuthenticated`, otherwise `Anonymous`. -/
def sessionKind (s : AuthState) : SessionKind :=
  if isGuest s then .Guest
  else if isAuthenticated s then .Authenticated
  else .Anonymous

/-! ## API gateway request construction (src/services/api.js)

Only the observable shape of each outbound request is modelled: which
endpoint, which parameters, and the Authorization header string built by the
template literal `Token ${localStorage.getItem('authToken')}` — which
stringifies a `null` token to the literal text "null". -/

/-- The header value `Token ${token}`: a missing token is stringified by the
JS template literal to "null". -/
def tokenHeader (tok : Option String) : String :=
  "Token " ++ (match tok with | some t => t | none => "null")

/-- A request to `GET /posts/` as built by `postAPI.getAllPosts`. -/
structure PostsRequest where
  page : Nat
  page_size : Nat
  ordering : String
  authHeader : String
  deriving Repr, DecidableEq

/-- `postAPI.getAllPosts(page, pageSize, ordering)`: always attaches the
Authorization header built from the stored token. -/
def getAllPostsReq (page pageSize : Nat) (ordering : String)
    (tok : Option String) : PostsRequest :=
  { page := page, page_size := pageSize, ordering := ordering
    authHeader := tokenHeader tok }

/-- A request to `POST /posts/{id}/like/` as built by
`reactionAPI.toggleLike`. -/
structure ToggleLikeRequest where
  postId : Nat
  authHeader : String
  deriving Repr, DecidableEq

/-- `reactionAPI.toggleLike(postId)`: always attaches the Authorization
header built from the stored token. -/
def toggleLikeReq (postId : Nat) (tok : Option String) : ToggleLikeRequest :=
  { postId := postId, authHeader := tokenHeader tok }

/-- The network calls a component handler can issue, used to state
"no network call" facts. -/
inductive ApiCall where
  | loginReq (username : String)
  | registerReq (username email : String)
  | getAllPosts (page pageSize : Nat) (ordering : String)
  | toggleLike (postId : Nat)
  | createComment (postId : Nat) (content : String)
  | getComments (postId : Nat)
  deriving Repr, DecidableEq

/-! ## Feed data model and synchronizer (src/pages/Home.js) -/

structure Topic where
  id : Nat
  name : String
  deriving Repr, DecidableEq

structure Creator where
  user_id : Nat
  username : String
  deriving Repr, DecidableEq

structure Post where
  id : Nat
  title : String
  content : String
  topic : Topic
  creator : Creator
  created_at : Int
  likes_count : Int
  comments_count : Nat
  is_liked : Bool
  deriving Repr, DecidableEq

/-- The body of the server's response to a like-toggle. -/
structure LikeResponse where
  liked : Bool
  likes_count : Int
  deriving Repr, DecidableEq

/-- The spread `{ ...post, is_liked: response.data.liked,
likes_count: response.data.likes_count }`. -/
def patchPost (p : Post) (r : LikeResponse) : Post :=
  { p with is_liked := r.liked, likes_count := r.likes_count }

/-- `posts.map(post => post.id === postId ? { ...post, ... } : post)`. -/
def applyLikeResponse (posts : List Post) (postId : Nat)
    (r : LikeResponse) : List Post :=
  posts.map fun p => if p.id == postId then patchPost p r else p

/-- Result of `Home.handleLike`: the new post list, any `alert` shown, and
the requests issued. -/
structure LikeHandlerResult where
  posts : List Post
  alertMsg : Option String
  calls : List ApiCall
  deriving Repr, DecidableEq

/-- `Home.handleLike(postId)` with the server's answer to the like-toggle
passed as `api` (`none` = the request failed). The guest check precedes the
network call. -/
def handleLike (guest : Bool) (posts : List Post) (postId : Nat)
    (api : Option LikeResponse) : LikeHandlerResult :=
  if guest then
    { posts := posts, alertMsg := some "Please login to like posts", calls := [] }
  else
    match api with
    | some r =>
      { posts := applyLikeResponse posts postId r, alertMsg := none
        calls := [.toggleLike postId] }
    | none =>
      { posts := posts, alertMsg := some "Failed to like post"
        calls := [.toggleLike postId] }

/-- `PostDetail.handleLike` (single post in state instead of a list). -/
def handleLikeDetail (guest : Bool) (post : Post)
    (api : Option LikeResponse) : Post × Option String × List ApiCall :=
  if guest then
    (post, some "Please login to like posts", [])
  else
    match api with
    | some r => (patchPost post r, none, [.toggleLike post.id])
    | none => (post, some "Failed to like post", [.toggleLike post.id])

/-- `Home.fetchPosts` for one tab: the request it issues and the new value
of `posts` given the response's `results` field (`data.data.results || []`;
`none` models an absent field). -/
def fetchPosts (popularTab : Bool) (tok : Option String)
    (results : Option (List Post)) : PostsRequest × List Post :=
  let req :=
    if popularTab then getAllPostsReq 1 20 "-likes_count" tok
    else getAllPostsReq 1 20 "-created_at" tok
  (req, results.getD [])

/-! ## Comment data model and synchronizer (the `Comments` component) -/

structure Comment where
  id : Nat
  content : String
  creatorUsername : String
  created_at : Int
  likes_count : Option Int
  deriving Repr, DecidableEq

/-- Stable insertion: `x` is placed before the first `y` it may precede
(`le x y`), so elements comparing equal keep their original order. -/
def stableInsert {α : Type} (le : α → α → Bool) (x : α) : List α → List α
  | [] => [x]
  | y :: ys => if le x y then x :: y :: ys else y :: stableInsert le x ys

/-- Stable sort with respect to the total preorder decided by `le`
(`le a b` = "a may come before b").  `Array.prototype.sort` is required to
be stable, and for a total preorder every stable sort computes the same
list, so this is the functional behaviour of `sorted.sort(comparator)`. -/
def stableSort {α : Type} (le : α → α → Bool) : List α → List α
  | [] => []
  | x :: xs => stableInsert le x (stableSort le xs)

/-- Comparator `(a, b) => (b.likes_count || 0) - (a.likes_count || 0)`:
`a` may precede `b` iff the difference is ≤ 0. -/
def likesLe (a b : Comment) : Bool :=
  decide (b.likes_count.getD 0 ≤ a.likes_count.getD 0)

/-- Comparator `(a, b) => new Date(b.created_at) - new Date(a.created_at)`
(newest first). -/
def newestLe (a b : Comment) : Bool :=
  decide (b.created_at ≤ a.created_at)

/-- Comparator `(a, b) => new Date(a.created_at) - new Date(b.created_at)`
(oldest first). -/
def oldestLe (a b : Comment) : Bool :=
  decide (a.created_at ≤ b.created_at)

/-- `getSortedComments`: copies the fetched list and re-sorts it client-side
according to the current sort mode; an unknown mode returns the copy. -/
def getSortedComments (comments : List Comment) (sortMode : String) :
    List Comment :=
  if sortMode == "likes" then stableSort likesLe comments
  else if sortMode == "newest" then stableSort newestLe comments
  else if sortMode == "oldest" then stableSort oldestLe comments
  else comments

/-- Whitespace for the purposes of `String.prototype.trim`. -/
def jsWhitespace (c : Char) : Bool :=
  c == ' ' || c == '\t' || c == '\n' || c == '\r'

/-- `String.prototype.trim`: strip whitespace from both ends. -/
def jsTrim (s : String) : String :=
  String.mk (((s.toList.dropWhile jsWhitespace).reverse.dropWhile
    jsWhitespace).reverse)

/-- Local state of the `Comments` component. -/
structure CommentsState where
  comments : List Comment
  newComment : String
  sortMode : String
  deriving Repr, DecidableEq

/-- `fetchComments` applied to a response: wholesale replacement of the
in-memory comment collection. -/
def fetchComments (st : CommentsState) (resp : List Comment) : CommentsState :=
  { st with comments := resp }

/-- Clicking one of the sort buttons: `onClick={() => setSortBy(m)}` —
only the sort mode changes and no request is issued. -/
def selectSortMode (st : CommentsState) (m : String) :
    CommentsState × List ApiCall :=
  ({ st with sortMode := m }, [])

/-- The branch `Comments.handleSubmit` takes. -/
inductive SubmitOutcome where
  | ignoredEmpty
  | guestBlocked
  | posted
  | postFailed
  deriving Repr, DecidableEq

structure SubmitResult where
  outcome : SubmitOutcome
  alertMsg : Option String
  calls : List ApiCall
  newComment : String
  reloaded : Bool
  deriving Repr, DecidableEq

/-- `Comments.handleSubmit`: `if (!newComment.trim()) return;` comes first,
then the guest check with its alert, then the network call; on success the
box is cleared and `fetchComments()` re-fetches, on failure an alert is
shown and the box keeps its content. -/
def handleSubmit (guest : Bool) (postId : Nat) (newComment : String)
    (apiOk : Bool) : SubmitResult :=
  if jsTrim newComment == "" then
    { outcome := .ignoredEmpty, alertMsg := none, calls := []
      newComment := newComment, reloaded := false }
  else if guest then
    { outcome := .guestBlocked, alertMsg := some "Please login to comment"
      calls := [], newComment := newComment, reloaded := false }
  else if apiOk then
    { outcome := .posted, alertMsg := none
      calls := [.createComment postId newComment, .getComments postId]
      newComment := "", reloaded := true }
  else
    { outcome := .postFailed, alertMsg := some "Failed to post comment"
      calls := [.createComment postId newComment]
      newComment := newComment, reloaded := false }

/-- The spec's error taxonomy (§7). -/
inductive ErrorKind where
  | Unauthorized
  | GuestForbidden
  | ValidationError
  | NetworkFailure
  deriving Repr, DecidableEq

/-- Classification of the `handleSubmit` branches by the spec's taxonomy:
the guest branch is a guest write rejection, the empty-content branch a
client-side form constraint, the failed request a network failure. -/
def submitErrorKind : SubmitOutcome → Option ErrorKind
  | .ignoredEmpty => some .ValidationError
  | .guestBlocked => some .GuestForbidden
  | .posted => none
  | .postFailed => some .NetworkFailure

/-! ## The register branch of `Login.handleSubmit` -/

/-- The register branch: the password/confirmation check runs before any
request; a successful registration is followed by an automatic login call.
`registerOk` and `loginToken` are the two servers answers. -/
def registerBranch (s : AuthState) (username email password password2 : String)
    (registerOk : Bool) (loginToken : Option String) :
    AuthState × Option String × List ApiCall :=
  if password ≠ password2 then
    (s, some "Passwords do not match", [])
  else
    match register s registerOk with
    | (s1, .success) =>
      match login s1 username loginToken with
      | (s2, .success _ _) =>
        (s2, none, [.registerReq username email, .loginReq username])
      | (s2, .failure) =>
        (s2, some "Registration successful, but login failed. Please try logging in.",
         [.registerReq username email, .loginReq username])
    | (s1, .failure) =>
      (s1, some "Registration failed", [.registerReq username email])

/-! ## Sample values (used by the concrete witnesses) -/

def samplePost1 : Post :=
  { id := 1, title := "t1", content := "c1", topic := ⟨10, "politics"⟩
    creator := ⟨100, "alice"⟩, created_at := 1000
    likes_count := 5, comments_count := 2, is_liked := false }

def samplePost2 : Post :=
  { id := 2, title := "t2", content := "c2", topic := ⟨11, "economy"⟩
    creator := ⟨101, "bob"⟩, created_at := 900
    likes_count := 3, comments_count := 0, is_liked := true }

def sampleLikeResponse : LikeResponse := { liked := true, likes_count := 6 }

def sampleComment1 : Comment :=
  { id := 1, content := "first", creatorUsername := "alice"
    created_at := 100, likes_count := some 3 }

def sampleComment2 : Comment :=
  { id := 2, content := "second", creatorUsername := "bob"
    created_at := 50, likes_count := some 7 }

def sampleCommentsState : CommentsState :=
  { comments := [sampleComment1, sampleComment2], newComment := ""
    sortMode := "newest" }

def sampleAuthState : AuthState :=
  { guestMode := false, currentUsername := some "alice"
    storedToken := some "tok", storedUsername := some "alice" }

/-! ## Helper lemmas -/

/-- A map whose function fixes every element of the list is the identity. -/
theorem map_eq_self_of_fixed {α : Type} (f : α → α) :
    ∀ (l : List α), (∀ a ∈ l, f a = a) → l.map f = l
  | [], _ => rfl
  | x :: xs, h => by
    simp only [List.map_cons]
    rw [h x (by simp), map_eq_self_of_fixed f xs (fun a ha => h a (by simp [ha]))]

/-- A stable sort leaves a list that is already pairwise ordered unchanged. -/
theorem stableSort_eq_of_pairwise {α : Type} (le : α → α → Bool) :
    ∀ (l : List α), List.Pairwise (fun a b => le a b = true) l →
      stableSort le l = l
  | [], _ => rfl
  | x :: xs, h => by
    obtain ⟨h1, h2⟩ := List.pairwise_cons.mp h
    show stableInsert le x (stableSort le xs) = x :: xs
    rw [stableSort_eq_of_pairwise le xs h2]
    cases xs with
    | nil => rfl
    | cons y ys =>
      have hxy : le x y = true := h1 y (by simp)
      simp [stableInsert, hxy]

/-- Patching a post list in which no element left or right of `P` carries
`P`'s id rewrites exactly the occurrence of `P`. -/
theorem applyLikeResponse_append (pre post_ : List Post) (P : Post)
    (r : LikeResponse) (h : ∀ q ∈ pre ++ post_, q.id ≠ P.id) :
    applyLikeResponse (pre ++ P :: post_) P.id r =
      pre ++ patchPost P r :: post_ := by
  unfold applyLikeResponse
  rw [List.map_append, List.map_cons]
  have hpre : ∀ q ∈ pre, q.id ≠ P.id :=
    fun q hq => h q (List.mem_append_left _ hq)
  have hpost : ∀ q ∈ post_, q.id ≠ P.id :=
    fun q hq => h q (List.mem_append_right _ hq)
  rw [map_eq_self_of_fixed _ pre
      (fun q hq => by simp [beq_iff_eq, hpre q hq]),
    map_eq_self_of_fixed _ post_
      (fun q hq => by simp [beq_iff_eq, hpost q hq])]
  simp

/-! ## Claim theorems -/

/-- C1: when a like-toggle on post `P` succeeds with server response
`{liked, likes_count}`, the new list is the old one with exactly `P`'s
`is_liked` and `likes_count` replaced by the response values (the count is
adopted from the server, never computed locally); every other post and
every other field of `P` is unchanged, and the detail page patches its
single post the same way.  In particular `likes_count = 5, is_liked = false`
with response `{liked: true, likes_count: 6}` becomes `6`/`true`. -/
theorem toggleLike_patches_exactly (pre post_ : List Post) (P : Post)
    (r : LikeResponse) (h : ∀ q ∈ pre ++ post_, q.id ≠ P.id) :
    (handleLike false (pre ++ P :: post_) P.id (some r)).posts =
        pre ++ patchPost P r :: post_
    ∧ (patchPost P r).likes_count = r.likes_count
    ∧ (patchPost P r).is_liked = r.liked
    ∧ (patchPost P r).id = P.id
    ∧ (patchPost P r).title = P.title
    ∧ (patchPost P r).content = P.content
    ∧ (patchPost P r).topic = P.topic
    ∧ (patchPost P r).creator = P.creator
    ∧ (patchPost P r).created_at = P.created_at
    ∧ (patchPost P r).comments_count = P.comments_count
    ∧ (handleLikeDetail false P (some r)).1 = patchPost P r
    ∧ (P.likes_count = 5 ∧ P.is_liked = false ∧ r.liked = true ∧
        r.likes_count = 6 →
        (patchPost P r).likes_count = 6 ∧ (patchPost P r).is_liked = true) :=
  ⟨by simp [handleLike, applyLikeResponse_append pre post_ P r h],
   rfl, rfl, rfl, rfl, rfl, rfl, rfl, rfl, rfl, rfl,
   fun hc => ⟨by simp [patchPost, hc.2.2.2], by simp [patchPost, hc.2.2.1]⟩⟩

/-- C1 witness: the list `[samplePost2, samplePost1]` with the like-toggle
response `{liked: true, likes_count: 6}` on post 1. -/
theorem toggleLike_patches_exactly_witness :
    (∀ q ∈ [samplePost2] ++ ([] : List Post), q.id ≠ samplePost1.id)
    ∧ (handleLike false ([samplePost2] ++ samplePost1 :: [])
        samplePost1.id (some sampleLikeResponse)).posts =
        [samplePost2] ++ patchPost samplePost1 sampleLikeResponse :: [] :=
  ⟨by decide,
   (toggleLike_patches_exactly [samplePost2] [] samplePost1
     sampleLikeResponse (by decide)).1⟩

/-- C2: a login whose API request fails leaves the whole session state
untouched and reports failure; a successful login with a (truthy) token
yields an `Authenticated` session holding the given username and persists
both credential slots. -/
theorem login_success_and_failure (s : AuthState) (u tok : String)
    (h : tok ≠ "") :
    login s u none = (s, .failure)
    ∧ (login s u (some tok)).2 = .success u tok
    ∧ sessionKind (login s u (some tok)).1 = .Authenticated
    ∧ (login s u (some tok)).1.currentUsername = some u
    ∧ (login s u (some tok)).1.storedToken = some tok
    ∧ (login s u (some tok)).1.storedUsername = some u := by
  refine ⟨rfl, rfl, ?_, rfl, rfl, rfl⟩
  simp [login, sessionKind, isGuest, isAuthenticated, jsTruthy, h]

/-- C2 witness: failed then successful login from the fresh state. -/
theorem login_success_and_failure_witness :
    ("tok123" ≠ "")
    ∧ sessionKind (login initialAuthState "alice" (some "tok123")).1 =
        .Authenticated :=
  ⟨by decide,
   (login_success_and_failure initialAuthState "alice" "tok123"
     (by decide)).2.2.1⟩

/-- C5: the register branch rejects a mismatched confirmation locally with
a validation error and no network call; `authService.register` itself never
changes the session state or the persisted credential, whatever the API
outcome, so only a subsequent login can authenticate. -/
theorem register_validates_locally (s : AuthState) (u e p p2 : String)
    (ok : Bool) (tk : Option String) (h : p ≠ p2) :
    registerBranch s u e p p2 ok tk = (s, some "Passwords do not match", [])
    ∧ (register s ok).1 = s
    ∧ sessionKind (register s ok).1 = sessionKind s
    ∧ (register s ok).1.storedToken = s.storedToken
    ∧ (register s ok).1.storedUsername = s.storedUsername := by
  refine ⟨?_, rfl, rfl, rfl, rfl⟩
  simp [registerBranch, h]

/-- C5 witness: mismatched passwords from the fresh state. -/
theorem register_validates_locally_witness :
    ("pw1" ≠ "pw2")
    ∧ registerBranch initialAuthState "alice" "a@b.c" "pw1" "pw2" true none =
        (initialAuthState, some "Passwords do not match", []) :=
  ⟨by decide,
   (register_validates_locally initialAuthState "alice" "a@b.c" "pw1" "pw2"
     true none (by decide)).1⟩

/-- C6: guest entry from any prior state yields the guest state with both
persisted slots removed, classified `Guest`; reloading afterwards (module
variables reset, storage kept) and running `initAuth` gives the fresh
state, classified `Anonymous`, never `Guest`. -/
theorem guest_entry_clears_and_reverts (s : AuthState) :
    loginAsGuest s =
      { guestMode := true, currentUsername := some "Guest"
        storedToken := none, storedUsername := none }
    ∧ sessionKind (loginAsGuest s) = .Guest
    ∧ (loginAsGuest s).storedToken = none
    ∧ (loginAsGuest s).storedUsername = none
    ∧ initAuth (reload (loginAsGuest s)) = initialAuthState
    ∧ sessionKind (initAuth (reload (loginAsGuest s))) = .Anonymous :=
  ⟨rfl, rfl, rfl, rfl, rfl, rfl⟩

/-- C7: every feed load requests exactly page 1 with page size 20 and
carries the ordering parameter — `-likes_count` for the popular tab and
`-created_at` for the following tab — on each call (switching
popular → following → popular sends it three times); the response's result
list wholly replaces the collection, the empty list when the response has
no `results`. -/
theorem feed_load_params (tok : Option String) (results : Option (List Post))
    (popularTab : Bool) :
    (fetchPosts true tok results).1 =
      { page := 1, page_size := 20, ordering := "-likes_count"
        authHeader := tokenHeader tok }
    ∧ (fetchPosts false tok results).1 =
      { page := 1, page_size := 20, ordering := "-created_at"
        authHeader := tokenHeader tok }
    ∧ (fetchPosts popularTab tok results).2 = results.getD []
    ∧ (fetchPosts popularTab tok none).2 = []
    ∧ [true, false, true].map (fun t => (fetchPosts t tok results).1.ordering)
        = ["-likes_count", "-created_at", "-likes_count"] :=
  ⟨rfl, rfl, rfl, rfl, rfl⟩

/-- C8: re-sorting by `newest` a comment list already sorted by
`created_at` descending returns the identical list (so the sort is
idempotent), and each sort mode is a pure client-side re-sort of the
fetched collection: selecting a mode changes only the sort mode and issues
no request. -/
theorem newest_sort_idempotent (l : List Comment) (st : CommentsState)
    (m : String) (h : List.Pairwise (fun a b => newestLe a b = true) l) :
    getSortedComments l "newest" = l
    ∧ getSortedComments (getSortedComments l "newest") "newest" =
        getSortedComments l "newest"
    ∧ selectSortMode st m = ({ st with sortMode := m }, [])
    ∧ getSortedComments st.comments "likes" = stableSort likesLe st.comments
    ∧ getSortedComments st.comments "newest" = stableSort newestLe st.comments
    ∧ getSortedComments st.comments "oldest" =
        stableSort oldestLe st.comments := by
  have key : getSortedComments l "newest" = l := by
    show stableSort newestLe l = l
    exact stableSort_eq_of_pairwise newestLe l h
  exact ⟨key, by rw [key, key], rfl, rfl, rfl, rfl⟩

/-- C8 witness: a two-comment list sorted newest-first. -/
theorem newest_sort_idempotent_witness :
    List.Pairwise (fun a b => newestLe a b = true)
      [sampleComment1, sampleComment2]
    ∧ getSortedComments [sampleComment1, sampleComment2] "newest" =
        [sampleComment1, sampleComment2] :=
  ⟨by decide,
   (newest_sort_idempotent [sampleComment1, sampleComment2]
     sampleCommentsState "likes" (by decide)).1⟩

/-- C9: `isGuest` holds only when the guest flag is set and no (truthy)
token is stored; a state holding a stored credential never satisfies
`isGuest`; and `isGuest` and `isAuthenticated` are never simultaneously
true for a state classified `Authenticated`, in particular not with the
stored credential absent. -/
theorem isGuest_excludes_credential (s : AuthState) :
    (isGuest s = true → s.guestMode = true ∧ jsTruthy s.storedToken = false)
    ∧ (jsTruthy s.storedToken = true → isGuest s = false)
    ∧ ¬(isGuest s = true ∧ sessionKind s = .Authenticated)
    ∧ ¬(isGuest s = true ∧ isAuthenticated s = true ∧
        sessionKind s = .Authenticated ∧ jsTruthy s.storedToken = false) := by
  unfold sessionKind isGuest isAuthenticated
  cases hg : s.guestMode <;> cases ht : jsTruthy s.storedToken <;> simp [hg, ht]

/-- C9 witness: a state with a stored credential is not a guest. -/
theorem isGuest_excludes_credential_witness :
    jsTruthy sampleAuthState.storedToken = true
    ∧ isGuest sampleAuthState = false :=
  ⟨by decide, (isGuest_excludes_credential sampleAuthState).2.1 (by decide)⟩

/-- C10: the post-list and like-toggle requests always carry an
Authorization header built from the stored token; when no credential is
stored — the anonymous case, and the guest case after `loginAsGuest` —
the header is still sent and reads literally `Token null`. -/
theorem auth_header_always_attached (page ps pid : Nat) (ord : String)
    (tok : Option String) :
    (getAllPostsReq page ps ord tok).authHeader = tokenHeader tok
    ∧ (toggleLikeReq pid tok).authHeader = tokenHeader tok
    ∧ (tok = none →
        (getAllPostsReq page ps ord tok).authHeader = "Token null"
        ∧ (toggleLikeReq pid tok).authHeader = "Token null")
    ∧ (getAllPostsReq page ps ord
        (loginAsGuest sampleAuthState).storedToken).authHeader = "Token null"
    ∧ (toggleLikeReq pid
        (loginAsGuest sampleAuthState).storedToken).authHeader =
        "Token null" := by
  refine ⟨rfl, rfl, fun hn => ?_, rfl, rfl⟩
  subst hn
  exact ⟨rfl, rfl⟩

/-- C10 witness: concrete anonymous requests carry `Token null`. -/
theorem auth_header_always_attached_witness :
    ((none : Option String) = none)
    ∧ (getAllPostsReq 1 20 "-likes_count" none).authHeader = "Token null"
    ∧ (toggleLikeReq 7 none).authHeader = "Token null" :=
  ⟨rfl, (auth_header_always_attached 1 20 7 "-likes_count" none).2.2.1 rfl⟩

/-- C3 counterexample: a guest submitting a comment whose content is empty
is turned away by the empty-content check, which runs before the guest
check — no user-facing notice is shown and the outcome is not the
guest-forbidden rejection the claim promises for every guest write. -/
theorem guest_empty_submit_no_notice :
    (handleSubmit true 1 "" true).alertMsg = none
    ∧ (handleSubmit true 1 "" true).outcome = .ignoredEmpty
    ∧ submitErrorKind (handleSubmit true 1 "" true).outcome ≠
        some .GuestForbidden
    ∧ (handleSubmit true 1 "" true).calls = [] := by
  decide

/-- C3 (amended): for every guest session, toggling a like fails
client-side with a guest-forbidden notice, no network call and an
unchanged list; submitting a comment with non-empty trimmed content fails
client-side with a guest-forbidden notice and no network call; submitting
empty trimmed content is ignored silently — before the guest check — with
no network call either. -/
theorem guest_writes_blocked (posts : List Post) (postId pid2 : Nat)
    (api : Option LikeResponse) (content : String) (apiOk : Bool)
    (h : jsTrim content ≠ "") :
    (handleLike true posts postId api).alertMsg =
        some "Please login to like posts"
    ∧ (handleLike true posts postId api).calls = []
    ∧ (handleLike true posts postId api).posts = posts
    ∧ (handleSubmit true pid2 content apiOk).outcome = .guestBlocked
    ∧ submitErrorKind (handleSubmit true pid2 content apiOk).outcome =
        some .GuestForbidden
    ∧ (handleSubmit true pid2 content apiOk).alertMsg =
        some "Please login to comment"
    ∧ (handleSubmit true pid2 content apiOk).calls = []
    ∧ (handleSubmit true pid2 "" apiOk).outcome = .ignoredEmpty
    ∧ (handleSubmit true pid2 "" apiOk).alertMsg = none
    ∧ (handleSubmit true pid2 "" apiOk).calls = [] := by
  refine ⟨rfl, rfl, rfl, ?_, ?_, ?_, ?_, rfl, rfl, rfl⟩ <;>
    simp [handleSubmit, submitErrorKind, beq_iff_eq, h]

/-- C3 witness: a guest blocked from liking post 1 and from submitting
the comment "hi". -/
theorem guest_writes_blocked_witness :
    jsTrim "hi" ≠ ""
    ∧ (handleSubmit true 1 "hi" true).outcome = .guestBlocked :=
  ⟨by decide,
   (guest_writes_blocked [samplePost1] 1 1 none "hi" true (by decide)).2.2.2.1⟩

/-- C4 counterexample: a guest submitting non-empty content is rejected by
the guest check — a guest-forbidden notice, not the validation error the
claim promises for every failed precondition. -/
theorem guest_submit_not_validation :
    submitErrorKind (handleSubmit true 1 "hi" true).outcome =
        some .GuestForbidden
    ∧ submitErrorKind (handleSubmit true 1 "hi" true).outcome ≠
        some .ValidationError
    ∧ (handleSubmit true 1 "hi" true).outcome ≠ .ignoredEmpty := by
  decide

/-- C4 (amended): `submit(postId, content)` requires a non-guest session
and non-empty trimmed content; empty trimmed content fails silently
client-side (the validation branch) with no network call; a guest with
non-empty content fails client-side with a guest-forbidden notice and no
network call; on success the input box is cleared and a full re-fetch of
the post's comments is issued (`getComments postId` follows the create
call) which wholesale-replaces the collection rather than appending
locally. -/
theorem submit_requires_and_reloads (g : Bool) (postId : Nat)
    (e content : String) (apiOk : Bool)
    (he : jsTrim e = "") (h : jsTrim content ≠ "") :
    handleSubmit g postId e apiOk =
      { outcome := .ignoredEmpty, alertMsg := none, calls := []
        newComment := e, reloaded := false }
    ∧ submitErrorKind .ignoredEmpty = some .ValidationError
    ∧ handleSubmit true postId content apiOk =
      { outcome := .guestBlocked, alertMsg := some "Please login to comment"
        calls := [], newComment := content, reloaded := false }
    ∧ submitErrorKind .guestBlocked = some .GuestForbidden
    ∧ handleSubmit false postId content true =
      { outcome := .posted, alertMsg := none
        calls := [.createComment postId content, .getComments postId]
        newComment := "", reloaded := true }
    ∧ (∀ (st : CommentsState) (resp : List Comment),
        fetchComments st resp = { st with comments := resp }) := by
  refine ⟨?_, rfl, ?_, rfl, ?_, fun st resp => rfl⟩ <;>
    simp [handleSubmit, beq_iff_eq, he, h]

/-- C4 witness: empty content `"  "` is silently ignored; content "hi" as
guest is guest-blocked; content "hi" as non-guest posts and re-fetches. -/
theorem submit_requires_and_reloads_witness :
    (jsTrim "  " = "" ∧ jsTrim "hi" ≠ "")
    ∧ handleSubmit false 1 "hi" true =
      { outcome := .posted, alertMsg := none
        calls := [.createComment 1 "hi", .getComments 1]
        newComment := "", reloaded := true } :=
  ⟨⟨by decide, by decide⟩,
   (submit_requires_and_reloads false 1 "  " "hi" true (by decide)
     (by decide)).2.2.2.2.1⟩

end Forum
